import Mathlib

/-!
Shallow embedding of the stateful mock API simulation engine
(`MockApiService` in the repository's service module) together with proofs
about its dispatch behaviour: shipment CRUD, the webhook event log, the
fixed-window rate limiter and the auth simulators.

Modelling conventions:
* JS values are embedded as `Value` (null / bool / number / string /
  array / object).  Numbers are `Int` (all numbers in the source are
  integers).
* JS objects are association lists (`Obj`); the FIRST binding of a key is
  its value.  Since in a JS object literal the key written LAST wins, the
  spread `{...a, ...b}` is embedded as `b ++ a`, and literal fields that
  override a spread are placed in front of it.
* Nondeterministic/ambient inputs (`Date.now()`, `Math.random()`,
  `new Date().toISOString()`) are supplied per call through `Ext`.
* The stateful method `handleRequest` becomes a pure function from
  `ApiState` to `ApiResponse × ApiState`.  The artificial latency line
  (`setTimeout`) has no observable effect in this model and is dropped.
* JS string primitives used by the source (`includes`, `startsWith`,
  `split` with a one-character separator, `replace` with a string pattern,
  which replaces only the first occurrence) are embedded as executable
  functions on character lists.
-/

namespace MockApi

/-- JSON-compatible values manipulated by the engine. -/
inductive Value where
  | vnull : Value
  | vbool (b : Bool) : Value
  | vnum (n : Int) : Value
  | vstr (s : String) : Value
  | varr (elems : List Value) : Value
  | vobj (fields : List (String × Value)) : Value

/-- JS objects as association lists; the first binding of a key wins. -/
abbrev Obj := List (String × Value)

/-- Property lookup `o[k]`: `none` plays the role of `undefined`. -/
def Obj.get (o : Obj) (k : String) : Option Value :=
  (o.find? (fun p => p.1 == k)).map (fun p => p.2)

/-- JS truthiness of a value. -/
def jsTruthy : Value → Bool
  | .vnull => false
  | .vbool b => b
  | .vnum n => !(n == 0)
  | .vstr s => !(s == "")
  | .varr _ => true
  | .vobj _ => true

/-- JS truthiness where `none` is `undefined` (falsy). -/
def jsTruthyOpt : Option Value → Bool
  | some v => jsTruthy v
  | none => false

/-- JS `x || d` for a possibly-undefined `x`. -/
def jsOrValue (o : Option Value) (d : Value) : Value :=
  match o with
  | some v => if jsTruthy v then v else d
  | none => d

/-- JS strict equality `v === s` against a string: true exactly when `v`
is a string with the same contents (`undefined === s` is false). -/
def strictEqStr : Option Value → String → Bool
  | some (.vstr t), s => t == s
  | _, _ => false

/-- Header lookup, `headers?.[k]`; JS property access is case-sensitive. -/
def hget (h : List (String × String)) (k : String) : Option String :=
  (h.find? (fun p => p.1 == k)).map (fun p => p.2)

/-- JS `s.startsWith(pat)`. -/
def jsStartsWith (s pat : String) : Bool :=
  pat.data.isPrefixOf s.data

/-- Does `pat` occur as a contiguous sublist of `s`? -/
def hasInfixChars (pat : List Char) : List Char → Bool
  | [] => pat.isPrefixOf []
  | c :: rest => pat.isPrefixOf (c :: rest) || hasInfixChars pat rest

/-- JS `s.includes(pat)`. -/
def jsIncludes (s pat : String) : Bool :=
  hasInfixChars pat.data s.data

/-- Accumulator version of one-character `split`. -/
def splitAux (sep : Char) : List Char → List Char → List (List Char)
  | [], acc => [acc.reverse]
  | c :: rest, acc =>
    if c = sep then acc.reverse :: splitAux sep rest []
    else splitAux sep rest (c :: acc)

/-- JS `s.split(sep)` for a one-character separator. -/
def jsSplit (s : String) (sep : Char) : List String :=
  (splitAux sep s.data []).map String.mk

/-- Drop the first occurrence of `pat`, if any. -/
def removeFirstAux (pat : List Char) : List Char → List Char
  | [] => []
  | c :: rest =>
    if pat.isPrefixOf (c :: rest) then (c :: rest).drop pat.length
    else c :: removeFirstAux pat rest

/-- JS `s.replace(pat, "")` with a string pattern: removes only the first
occurrence of `pat`. -/
def jsReplaceEmpty (s pat : String) : String :=
  String.mk (removeFirstAux pat.data s.data)

/-- The shape returned by every dispatch (`ApiResponse` in the source's
type module): an HTTP-like status, a JSON body and response headers. -/
structure ApiResponse where
  status : Nat
  data : Value
  headers : List (String × String)

/-- The mutable fields of `MockApiService`. -/
structure ApiState where
  shipments : List Obj
  inventory : List Obj
  webhookEvents : List Obj
  tokens : List String
  rateLimitCounter : Nat
  lastResetTime : Int

/-- The seeded shipment collection. -/
def initShipments : List Obj :=
  [[("id", .vstr "SHP-101"), ("origin", .vstr "Singapore"),
    ("destination", .vstr "Rotterdam"), ("status", .vstr "IN_TRANSIT"),
    ("weight", .vnum 5000)],
   [("id", .vstr "SHP-102"), ("origin", .vstr "Los Angeles"),
    ("destination", .vstr "Tokyo"), ("status", .vstr "PENDING"),
    ("weight", .vnum 1200)]]

/-- The seeded read-only inventory list. -/
def initInventory : List Obj :=
  [[("sku", .vstr "WGT-001"), ("name", .vstr "Standard Widget"),
    ("stock", .vnum 150)],
   [("sku", .vstr "GGT-999"), ("name", .vstr "Premium Gadget"),
    ("stock", .vnum 45)]]

/-- State at construction time; `t0` is the `Date.now()` value observed by
the field initializer of `lastResetTime`. -/
def initState (t0 : Int) : ApiState :=
  { shipments := initShipments
    inventory := initInventory
    webhookEvents := []
    tokens := ["valid-token-123"]
    rateLimitCounter := 0
    lastResetTime := t0 }

/-- Ambient inputs consumed by one `handleRequest` call. -/
structure Ext where
  now : Int
  randId : Nat
  randTxn : String
  isoTime : String

/-- The private `checkRateLimit` method, with the mutated fields made
explicit: given counter, `lastResetTime` and the current time, returns
(allowed?, new counter, new `lastResetTime`). -/
def checkRateLimit (counter : Nat) (lastResetTime now : Int) : Bool × Nat × Int :=
  let s := if now - lastResetTime > 60000 then (0, now) else (counter, lastResetTime)
  let c := s.1 + 1
  (decide (c ≤ 10), c, s.2)

/-- The event object built by the `/webhooks/trigger` branch. -/
def mkWebhookEvent (ext : Ext) (body : Option Obj) : Obj :=
  [("id", .vstr ("evt_" ++ toString ext.now)),
   ("type", jsOrValue (body.bind (fun b => b.get "type")) (.vstr "ping")),
   ("payload", jsOrValue (body.bind (fun b => b.get "payload")) (.vobj [])),
   ("timestamp", .vstr ext.isoTime)]

/-- Dispatch steps from the bearer-token gate onwards (the part of the
source below its "Auth Simulation (Existing Secure paths)" comment): generic
secure-prefix gate, login, shipment CRUD, inventory and the 404 fallback, in
source order. -/
def routeProtected (st : ApiState) (ext : Ext) (method endpoint : String)
    (body : Option Obj) (headers : List (String × String)) :
    ApiResponse × ApiState :=
  let authHeader := (hget headers "Authorization").getD ""
  let isAuthenticated := st.tokens.contains (jsReplaceEmpty authHeader "Bearer ")
  if jsStartsWith endpoint "/secure" ∧ isAuthenticated = false then
    ({ status := 401, data := .vobj [("error", .vstr "Unauthorized access")]
       headers := [] }, st)
  else if endpoint = "/auth/login" ∧ method = "POST" then
    if strictEqStr (body.bind (fun b => Obj.get b "username")) "admin" ∧
        strictEqStr (body.bind (fun b => Obj.get b "password")) "password123" then
      ({ status := 200
         data := .vobj [("token", .vstr "valid-token-123"),
           ("expiresAt", .vstr "2025-12-31")]
         headers := [] }, st)
    else
      ({ status := 403, data := .vobj [("error", .vstr "Invalid credentials")]
         headers := [] }, st)
  else if endpoint = "/shipments" ∧ method = "GET" then
    ({ status := 200, data := .varr (st.shipments.map .vobj)
       headers := [("X-Total-Count", toString st.shipments.length)] }, st)
  else if endpoint = "/shipments" ∧ method = "POST" then
    let newShipment : Obj :=
      [("status", .vstr "PENDING"),
       ("id", .vstr ("SHP-" ++ toString ext.randId))] ++ body.getD []
    ({ status := 201, data := .vobj newShipment, headers := [] },
     { st with shipments := st.shipments ++ [newShipment] })
  else if jsStartsWith endpoint "/shipments/" ∧ (method = "PUT" ∨ method = "PATCH") then
    let id := (jsSplit endpoint '/').getLastD ""
    match st.shipments.findIdx? (fun s => strictEqStr (Obj.get s "id") id) with
    | some index =>
      let merged := body.getD [] ++ st.shipments.getD index []
      ({ status := 200, data := .vobj merged, headers := [] },
       { st with shipments := st.shipments.set index merged })
    | none =>
      ({ status := 404, data := .vobj [("error", .vstr "Shipment not found")]
         headers := [] }, st)
  else if jsStartsWith endpoint "/shipments/" ∧ method = "DELETE" then
    let id := (jsSplit endpoint '/').getLastD ""
    match st.shipments.findIdx? (fun s => strictEqStr (Obj.get s "id") id) with
    | some index =>
      ({ status := 204, data := .vnull, headers := [] },
       { st with shipments := st.shipments.eraseIdx index })
    | none =>
      ({ status := 404, data := .vobj [("error", .vstr "Shipment not found")]
         headers := [] }, st)
  else if endpoint = "/inventory" ∧ method = "GET" then
    ({ status := 200, data := .varr (st.inventory.map .vobj), headers := [] }, st)
  else
    ({ status := 404, data := .vobj [("error", .vstr "Endpoint not found")]
       headers := [] }, st)

/-- Dispatch steps after the latency and rate-limit checks: canned errors,
auth endpoints, payment proxy and webhooks, in source order, falling through
to the protected section. -/
def route (st : ApiState) (ext : Ext) (method endpoint : String)
    (body : Option Obj) (headers : List (String × String)) :
    ApiResponse × ApiState :=
  if endpoint = "/error/400" then
    ({ status := 400
       data := .vobj [("error", .vstr "Bad Request"),
         ("message", .vstr "Missing required field: \x27orderId\x27"),
         ("code", .vstr "VALIDATION_ERROR")]
       headers := [] }, st)
  else if endpoint = "/error/403" then
    ({ status := 403
       data := .vobj [("error", .vstr "Forbidden"),
         ("message", .vstr "You do not have permission to access this resource."),
         ("code", .vstr "ACCESS_DENIED")]
       headers := [] }, st)
  else if endpoint = "/error/500" then
    ({ status := 500
       data := .vobj [("error", .vstr "Internal Server Error"),
         ("message", .vstr "An unexpected condition was encountered."),
         ("traceId", .vstr "err-992-abc")]
       headers := [] }, st)
  else if endpoint = "/error/502" then
    ({ status := 502
       data := .vobj [("error", .vstr "Bad Gateway"),
         ("message", .vstr "The server encountered a temporary error and could not complete your request.")]
       headers := [] }, st)
  else if endpoint = "/auth/apikey" then
    if hget headers "x-api-key" = some "sandbox-key-789" then
      ({ status := 200
         data := .vobj [("status", .vstr "Authenticated"), ("access", .vstr "full"),
           ("scope", .varr [.vstr "read", .vstr "write"])]
         headers := [] }, st)
    else
      ({ status := 403
         data := .vobj [("error", .vstr "Forbidden"),
           ("message", .vstr "Invalid or missing X-API-Key")]
         headers := [] }, st)
  else if endpoint = "/auth/jwt" then
    let authHeader := (hget headers "Authorization").getD ""
    if jsStartsWith authHeader "Bearer " ∧ (jsSplit authHeader '.').length = 3 then
      ({ status := 200
         data := .vobj [("status", .vstr "Success"), ("user", .vstr "qa-test-bot"),
           ("role", .vstr "admin")]
         headers := [] }, st)
    else
      ({ status := 401
         data := .vobj [("error", .vstr "Unauthorized"),
           ("message", .vstr "Bearer token malformed or expired")]
         headers := [] }, st)
  else if endpoint = "/proxy/payment" ∧ method = "POST" then
    let amount := (body.getD []).get "amount"
    let currency := (body.getD []).get "currency"
    if !(jsTruthyOpt amount) || !(jsTruthyOpt currency) then
      ({ status := 400, data := .vobj [("error", .vstr "Missing payment details")]
         headers := [] }, st)
    else
      ({ status := 200
         data := .vobj [("transactionId", .vstr ("txn_" ++ ext.randTxn)),
           ("status", .vstr "succeeded"), ("gateway", .vstr "mock_stripe_v3"),
           ("captured", .vbool true)]
         headers := [("X-External-Service", "Stripe-Mock")] }, st)
  else if endpoint = "/webhooks/trigger" ∧ method = "POST" then
    let event := mkWebhookEvent ext body
    let lst := event :: st.webhookEvents
    let lst := if lst.length > 10 then lst.dropLast else lst
    ({ status := 202
       data := .vobj [("message", .vstr "Webhook event queued"),
         ("eventId", .vstr ("evt_" ++ toString ext.now))]
       headers := [] }, { st with webhookEvents := lst })
  else if endpoint = "/webhooks/history" ∧ method = "GET" then
    ({ status := 200, data := .varr (st.webhookEvents.map .vobj), headers := [] }, st)
  else routeProtected st ext method endpoint body headers

/-- The public entry point `handleRequest`.  The rate-limit guard
`endpoint.includes(\x27/limited\x27) && !this.checkRateLimit()` short-circuits:
the counter is touched only when the endpoint belongs to the limited
family, and on denial no further branch runs. -/
def handleRequest (st : ApiState) (ext : Ext) (method endpoint : String)
    (body : Option Obj) (headers : List (String × String)) :
    ApiResponse × ApiState :=
  if jsIncludes endpoint "/limited" then
    let r := checkRateLimit st.rateLimitCounter st.lastResetTime ext.now
    let st1 := { st with rateLimitCounter := r.2.1, lastResetTime := r.2.2 }
    if r.1 = false then
      ({ status := 429
         data := .vobj [("error", .vstr "Too Many Requests"), ("retryAfter", .vnum 60)]
         headers := [] }, st1)
    else route st1 ext method endpoint body headers
  else route st ext method endpoint body headers

/-- Field access on an object-shaped response body. -/
def Value.objGet : Value → String → Option Value
  | .vobj o, k => Obj.get o k
  | _, _ => none

/-- Does an array-shaped response body contain an object whose `id` is the
given string? -/
def dataHasShipmentId (v : Value) (id : String) : Bool :=
  match v with
  | .varr l => l.any (fun x => match x with
      | .vobj o => strictEqStr (Obj.get o "id") id
      | _ => false)
  | _ => false

/-- Iterate trigger requests; each list element supplies the ambient inputs
and the request body of one POST to the trigger endpoint. -/
def runTriggers (st : ApiState) : List (Ext × Option Obj) → ApiState
  | [] => st
  | (e, b) :: rest =>
    runTriggers (handleRequest st e "POST" "/webhooks/trigger" b []).2 rest

/-- Ambient inputs of a request that only needs the clock. -/
def mkExtAt (t : Int) : Ext :=
  { now := t, randId := 0, randTxn := "", isoTime := "" }

/-- The canned 429 body produced when the limiter denies. -/
def respLimited : ApiResponse :=
  { status := 429
    data := .vobj [("error", .vstr "Too Many Requests"), ("retryAfter", .vnum 60)]
    headers := [] }

/-- The fallback 404 reached by a request to the limited family that no
route matches (i.e. the limiter allowed it). -/
def respFallback : ApiResponse :=
  { status := 404, data := .vobj [("error", .vstr "Endpoint not found")]
    headers := [] }

/-- Iterate GET requests to the rate-limited path, one per clock value,
collecting the responses. -/
def runLimited (st : ApiState) : List Int → List ApiResponse × ApiState
  | [] => ([], st)
  | t :: ts =>
    let r := handleRequest st (mkExtAt t) "GET" "/limited" none []
    (r.1 :: (runLimited r.2 ts).1, (runLimited r.2 ts).2)

end MockApi

namespace MockApi

/-- C1: refuted on the code (the spec flags this as a correctness gap of the
source): create draws `SHP-<rand>` from a small random range with no
collision check, so from the seeded state a POST /shipments whose draw is
101 leaves two live records with id `SHP-101`. -/
theorem c1_create_id_collision :
    ((handleRequest (initState 0) { now := 0, randId := 101, randTxn := "", isoTime := "" }
      "POST" "/shipments" (some [("origin", .vstr "Paris")]) []).2.shipments.countP
        (fun s => strictEqStr (s.get "id") "SHP-101")) = 2 := by decide

/-- C2: refuted on the code (same root cause as C1): DELETE
/shipments/SHP-101 answers 204, but a later POST whose random draw is 101
re-creates the id, and the subsequent GET /shipments lists `SHP-101`
again, violating deletion finality. -/
theorem c2_deleted_id_reappears :
    (handleRequest (initState 0) { now := 0, randId := 0, randTxn := "", isoTime := "" }
        "DELETE" "/shipments/SHP-101" none []).1.status = 204 ∧
    dataHasShipmentId
      (handleRequest
        ((handleRequest
          ((handleRequest (initState 0) { now := 0, randId := 0, randTxn := "", isoTime := "" }
            "DELETE" "/shipments/SHP-101" none []).2)
          { now := 0, randId := 101, randTxn := "", isoTime := "" }
          "POST" "/shipments" (some [("origin", .vstr "X")]) []).2)
        { now := 0, randId := 0, randTxn := "", isoTime := "" }
        "GET" "/shipments" none []).1.data "SHP-101" = true := by
  constructor
  · decide
  · decide

/-- C7 counterexample: two header maps that differ only in the letter case
of the API-key header produce different responses (403 for `X-API-Key`,
200 for `x-api-key`), so header lookup is not case-insensitive. -/
theorem c7_header_case_cex :
    (handleRequest (initState 0) { now := 0, randId := 0, randTxn := "", isoTime := "" }
      "GET" "/auth/apikey" none [("X-API-Key", "sandbox-key-789")]).1.status = 403 ∧
    (handleRequest (initState 0) { now := 0, randId := 0, randTxn := "", isoTime := "" }
      "GET" "/auth/apikey" none [("x-api-key", "sandbox-key-789")]).1.status = 200 := by
  decide

/-- C7 amended: header lookup is exact (case-sensitive): the sandbox
API-key endpoint answers 200 precisely when the headers bind the lowercase
key `x-api-key` to the sandbox key. -/
theorem c7_header_lookup_case_sensitive (st : ApiState) (ext : Ext) (method : String)
    (body : Option Obj) (headers : List (String × String)) :
    ((handleRequest st ext method "/auth/apikey" body headers).1.status = 200 ↔
      hget headers "x-api-key" = some "sandbox-key-789") := by
  have h1 : jsIncludes "/auth/apikey" "/limited" = false := by decide
  simp only [handleRequest, h1, Bool.false_eq_true, if_false, route]
  norm_num
  by_cases hk : hget headers "x-api-key" = some "sandbox-key-789" <;> simp [hk]

end MockApi

namespace MockApi

theorem splitAux_length (sep : Char) :
    ∀ (l acc : List Char), (splitAux sep l acc).length = l.count sep + 1 := by
  intro l
  induction l with
  | nil => intro acc; simp [splitAux]
  | cons c rest ih =>
    intro acc
    by_cases h : c = sep
    · simp [splitAux, h, ih, List.count_cons]
    · simp [splitAux, h, ih, List.count_cons]

theorem jsSplit_length (s : String) (sep : Char) :
    (jsSplit s sep).length = s.data.count sep + 1 := by
  simp [jsSplit, splitAux_length]

/-- C9: POST /shipments answers 201 and appends a record whose id is the
freshly generated `SHP-<rand>` value and whose status is `PENDING`, even
when the body itself binds `id` or `status`; every other body field is
stored verbatim. -/
theorem c9_create_forces_id_status (st : ApiState) (ext : Ext) (body : Obj)
    (headers : List (String × String)) :
    ∃ newShipment : Obj,
      (handleRequest st ext "POST" "/shipments" (some body) headers).1.status = 201 ∧
      (handleRequest st ext "POST" "/shipments" (some body) headers).1.data
        = .vobj newShipment ∧
      (handleRequest st ext "POST" "/shipments" (some body) headers).2.shipments
        = st.shipments ++ [newShipment] ∧
      Obj.get newShipment "id" = some (.vstr ("SHP-" ++ toString ext.randId)) ∧
      Obj.get newShipment "status" = some (.vstr "PENDING") ∧
      ∀ k, k ≠ "id" → k ≠ "status" → Obj.get newShipment k = Obj.get body k := by
  have h1 : jsIncludes "/shipments" "/limited" = false := by decide
  have h2 : jsStartsWith "/shipments" "/secure" = false := by decide
  have h3 : jsStartsWith "/shipments" "/shipments/" = false := by decide
  refine ⟨[("status", .vstr "PENDING"),
    ("id", .vstr ("SHP-" ++ toString ext.randId))] ++ body, ?_, ?_, ?_, ?_, ?_, ?_⟩
  · simp [handleRequest, h1, route, routeProtected, h2, h3]
  · simp [handleRequest, h1, route, routeProtected, h2, h3]
  · simp [handleRequest, h1, route, routeProtected, h2, h3]
  · simp [Obj.get, List.find?]
  · simp [Obj.get, List.find?]
  · intro k hk1 hk2
    have e1 : ("status" == k) = false := by
      simp [beq_iff_eq]; exact fun h => hk2 h.symm
    have e2 : ("id" == k) = false := by
      simp [beq_iff_eq]; exact fun h => hk1 h.symm
    simp [Obj.get, List.find?, e1, e2]

theorem handleRequest_eq_route (st : ApiState) (ext : Ext) (method endpoint : String)
    (body : Option Obj) (headers : List (String × String))
    (h : jsIncludes endpoint "/limited" = false) :
    handleRequest st ext method endpoint body headers
      = route st ext method endpoint body headers := by
  simp [handleRequest, h]

theorem route_jwt (st : ApiState) (ext : Ext) (method : String) (body : Option Obj)
    (headers : List (String × String)) :
    route st ext method "/auth/jwt" body headers =
      (if jsStartsWith ((hget headers "Authorization").getD "") "Bearer " ∧
          (jsSplit ((hget headers "Authorization").getD "") '.').length = 3 then
        ({ status := 200
           data := .vobj [("status", .vstr "Success"), ("user", .vstr "qa-test-bot"),
             ("role", .vstr "admin")]
           headers := [] }, st)
      else
        ({ status := 401
           data := .vobj [("error", .vstr "Unauthorized"),
             ("message", .vstr "Bearer token malformed or expired")]
           headers := [] }, st)) := by
  simp [route]

/-- C10: the JWT endpoint answers 200 exactly when the Authorization
header starts with "Bearer " and contains exactly two dots, with no
non-emptiness requirement on the segments: "Bearer .." passes (200) while
"Bearer a.b.c.d" fails (401). -/
theorem c10_jwt_structural (st : ApiState) (ext : Ext) (method : String) (body : Option Obj)
    (headers : List (String × String)) :
    (((handleRequest st ext method "/auth/jwt" body headers).1.status = 200) ↔
      (jsStartsWith ((hget headers "Authorization").getD "") "Bearer " = true ∧
       ((hget headers "Authorization").getD "").data.count '.' = 2)) ∧
    (handleRequest st ext method "/auth/jwt" none
      [("Authorization", "Bearer ..")]).1.status = 200 ∧
    (handleRequest st ext method "/auth/jwt" none
      [("Authorization", "Bearer a.b.c.d")]).1.status = 401 := by
  have h1 : jsIncludes "/auth/jwt" "/limited" = false := by decide
  refine ⟨?_, ?_, ?_⟩
  · rw [handleRequest_eq_route st ext method _ body headers h1, route_jwt]
    have hcount : ((jsSplit ((hget headers "Authorization").getD "") '.').length = 3) ↔
        (((hget headers "Authorization").getD "").data.count '.' = 2) := by
      rw [jsSplit_length]; omega
    by_cases hc : jsStartsWith ((hget headers "Authorization").getD "") "Bearer " = true ∧
        (jsSplit ((hget headers "Authorization").getD "") '.').length = 3
    · rw [if_pos hc]
      exact iff_of_true rfl ⟨hc.1, hcount.mp hc.2⟩
    · rw [if_neg hc]
      exact iff_of_false (by simp) (fun hr => hc ⟨hr.1, hcount.mpr hr.2⟩)
  · rw [handleRequest_eq_route _ _ _ _ _ _ h1, route_jwt]
    have hx : jsStartsWith "Bearer .." "Bearer " = true ∧
        (jsSplit "Bearer .." '.').length = 3 := by decide
    simp [hget, List.find?, hx]
  · rw [handleRequest_eq_route _ _ _ _ _ _ h1, route_jwt]
    have hx : ¬ (jsStartsWith "Bearer a.b.c.d" "Bearer " = true ∧
        (jsSplit "Bearer a.b.c.d" '.').length = 3) := by decide
    simp [hget, List.find?, hx]

end MockApi

namespace MockApi

theorem splitAux_ne_nil (sep : Char) :
    ∀ (l acc : List Char), splitAux sep l acc ≠ [] := by
  intro l
  induction l with
  | nil => intro acc; simp [splitAux]
  | cons c rest ih =>
    intro acc
    by_cases h : c = sep
    · simp [splitAux, h]
    · simp only [splitAux, if_neg h]
      exact ih (c :: acc)

theorem splitAux_no_sep (sep : Char) :
    ∀ (m acc : List Char), sep ∉ m → splitAux sep m acc = [acc.reverse ++ m] := by
  intro m
  induction m with
  | nil => intro acc _; simp [splitAux]
  | cons c rest ih =>
    intro acc h
    have hc : ¬ c = sep := fun e => h (by simp [e])
    rw [splitAux, if_neg hc, ih (c :: acc) (fun hm => h (List.mem_cons_of_mem _ hm))]
    simp

theorem getLastD_irrel {α : Type _} :
    ∀ (l : List α), l ≠ [] → ∀ (d d' : α), l.getLastD d = l.getLastD d'
  | [], h, _, _ => absurd rfl h
  | _ :: l', _, d, d' => by rw [List.getLastD_cons, List.getLastD_cons]

theorem getLastD_map {α β : Type _} (f : α → β) :
    ∀ (l : List α) (d : α), (l.map f).getLastD (f d) = f (l.getLastD d)
  | [], d => rfl
  | a :: l', d => by
    rw [List.map_cons, List.getLastD_cons, List.getLastD_cons]
    exact getLastD_map f l' a

theorem splitAux_getLast (sep : Char) (m : List Char) (hm : sep ∉ m) :
    ∀ (l acc : List Char), (splitAux sep (l ++ sep :: m) acc).getLastD [] = m := by
  intro l
  induction l with
  | nil =>
    intro acc
    rw [List.nil_append, splitAux, if_pos rfl, splitAux_no_sep sep m [] hm]
    rfl
  | cons c rest ih =>
    intro acc
    rw [List.cons_append, splitAux]
    by_cases h : c = sep
    · rw [if_pos h, List.getLastD_cons,
        getLastD_irrel _ (splitAux_ne_nil sep (rest ++ sep :: m) []) acc.reverse []]
      exact ih []
    · rw [if_neg h]
      exact ih (c :: acc)

theorem lastSegment_shipments (id : String) (hid : '/' ∉ id.data) :
    (jsSplit ("/shipments/" ++ id) '/').getLastD "" = id := by
  have hD : ("/shipments/" ++ id).data
      = ['/','s','h','i','p','m','e','n','t','s'] ++ '/' :: id.data := by
    rw [String.data_append]; rfl
  rw [jsSplit, hD]
  have h1 := splitAux_getLast '/' id.data hid ['/','s','h','i','p','m','e','n','t','s'] []
  have h2 := getLastD_map String.mk
    (splitAux '/' (['/','s','h','i','p','m','e','n','t','s'] ++ '/' :: id.data) []) []
  calc ((splitAux '/' (['/','s','h','i','p','m','e','n','t','s'] ++ '/' :: id.data) []).map
        String.mk).getLastD ""
      = String.mk ((splitAux '/' (['/','s','h','i','p','m','e','n','t','s']
          ++ '/' :: id.data) []).getLastD []) := h2
    _ = String.mk id.data := by rw [h1]
    _ = id := rfl

theorem startsWith_shipments (id : String) :
    jsStartsWith ("/shipments/" ++ id) "/shipments/" = true := by
  show List.isPrefixOf _ _ = true
  rw [String.data_append]
  simp [ List.isPrefixOf_iff_prefix]

theorem route_update_raw (st : ApiState) (ext : Ext) (method id : String)
    (body : Option Obj) (headers : List (String × String))
    (hm : method = "PUT" ∨ method = "PATCH") :
    route st ext method ("/shipments/" ++ id) body headers =
      match st.shipments.findIdx? (fun s => strictEqStr (Obj.get s "id")
          ((jsSplit ("/shipments/" ++ id) '/').getLastD "")) with
      | some index =>
        ({ status := 200
           data := .vobj (body.getD [] ++ st.shipments.getD index [])
           headers := [] },
         { st with shipments :=
            st.shipments.set index (body.getD [] ++ st.shipments.getD index []) })
      | none =>
        ({ status := 404, data := .vobj [("error", .vstr "Shipment not found")]
           headers := [] }, st) := by
  have hc1 : ('s' : Char) ≠ 'e' := by decide
  have hc2 : ('s' : Char) ≠ 'a' := by decide
  have hc3 : ('s' : Char) ≠ 'p' := by decide
  have hc4 : ('s' : Char) ≠ 'w' := by decide
  have hne1 : ("/shipments/" ++ id) ≠ "/error/400" := fun h =>
    absurd (congrArg (fun s => s.data.getD 1 ' ') h) hc1
  have hne2 : ("/shipments/" ++ id) ≠ "/error/403" := fun h =>
    absurd (congrArg (fun s => s.data.getD 1 ' ') h) hc1
  have hne3 : ("/shipments/" ++ id) ≠ "/error/500" := fun h =>
    absurd (congrArg (fun s => s.data.getD 1 ' ') h) hc1
  have hne4 : ("/shipments/" ++ id) ≠ "/error/502" := fun h =>
    absurd (congrArg (fun s => s.data.getD 1 ' ') h) hc1
  have hne5 : ("/shipments/" ++ id) ≠ "/auth/apikey" := fun h =>
    absurd (congrArg (fun s => s.data.getD 1 ' ') h) hc2
  have hne6 : ("/shipments/" ++ id) ≠ "/auth/jwt" := fun h =>
    absurd (congrArg (fun s => s.data.getD 1 ' ') h) hc2
  have hne7 : ("/shipments/" ++ id) ≠ "/proxy/payment" := fun h =>
    absurd (congrArg (fun s => s.data.getD 1 ' ') h) hc3
  have hne8 : ("/shipments/" ++ id) ≠ "/webhooks/trigger" := fun h =>
    absurd (congrArg (fun s => s.data.getD 1 ' ') h) hc4
  have hne9 : ("/shipments/" ++ id) ≠ "/webhooks/history" := fun h =>
    absurd (congrArg (fun s => s.data.getD 1 ' ') h) hc4
  have hne10 : ("/shipments/" ++ id) ≠ "/auth/login" := fun h =>
    absurd (congrArg (fun s => s.data.getD 1 ' ') h) hc2
  have hne11 : ("/shipments/" ++ id) ≠ "/shipments" := by
    intro h
    have h2 : id.data.length + 11 = 10 := congrArg (fun s => s.data.length) h
    omega
  have hsec : jsStartsWith ("/shipments/" ++ id) "/secure" = false := rfl
  have hstart := startsWith_shipments id
  rcases hm with rfl | rfl <;>
    simp [route, routeProtected, hne1, hne2, hne3, hne4, hne5, hne6, hne7, hne8,
      hne9, hne10, hne11, hsec, hstart]

theorem route_delete_raw (st : ApiState) (ext : Ext) (id : String)
    (body : Option Obj) (headers : List (String × String)) :
    route st ext "DELETE" ("/shipments/" ++ id) body headers =
      match st.shipments.findIdx? (fun s => strictEqStr (Obj.get s "id")
          ((jsSplit ("/shipments/" ++ id) '/').getLastD "")) with
      | some index =>
        ({ status := 204, data := .vnull, headers := [] },
         { st with shipments := st.shipments.eraseIdx index })
      | none =>
        ({ status := 404, data := .vobj [("error", .vstr "Shipment not found")]
           headers := [] }, st) := by
  have hc1 : ('s' : Char) ≠ 'e' := by decide
  have hc2 : ('s' : Char) ≠ 'a' := by decide
  have hc3 : ('s' : Char) ≠ 'p' := by decide
  have hc4 : ('s' : Char) ≠ 'w' := by decide
  have hne1 : ("/shipments/" ++ id) ≠ "/error/400" := fun h =>
    absurd (congrArg (fun s => s.data.getD 1 ' ') h) hc1
  have hne2 : ("/shipments/" ++ id) ≠ "/error/403" := fun h =>
    absurd (congrArg (fun s => s.data.getD 1 ' ') h) hc1
  have hne3 : ("/shipments/" ++ id) ≠ "/error/500" := fun h =>
    absurd (congrArg (fun s => s.data.getD 1 ' ') h) hc1
  have hne4 : ("/shipments/" ++ id) ≠ "/error/502" := fun h =>
    absurd (congrArg (fun s => s.data.getD 1 ' ') h) hc1
  have hne5 : ("/shipments/" ++ id) ≠ "/auth/apikey" := fun h =>
    absurd (congrArg (fun s => s.data.getD 1 ' ') h) hc2
  have hne6 : ("/shipments/" ++ id) ≠ "/auth/jwt" := fun h =>
    absurd (congrArg (fun s => s.data.getD 1 ' ') h) hc2
  have hne7 : ("/shipments/" ++ id) ≠ "/proxy/payment" := fun h =>
    absurd (congrArg (fun s => s.data.getD 1 ' ') h) hc3
  have hne8 : ("/shipments/" ++ id) ≠ "/webhooks/trigger" := fun h =>
    absurd (congrArg (fun s => s.data.getD 1 ' ') h) hc4
  have hne9 : ("/shipments/" ++ id) ≠ "/webhooks/history" := fun h =>
    absurd (congrArg (fun s => s.data.getD 1 ' ') h) hc4
  have hne10 : ("/shipments/" ++ id) ≠ "/auth/login" := fun h =>
    absurd (congrArg (fun s => s.data.getD 1 ' ') h) hc2
  have hne11 : ("/shipments/" ++ id) ≠ "/shipments" := by
    intro h
    have h2 : id.data.length + 11 = 10 := congrArg (fun s => s.data.length) h
    omega
  have hsec : jsStartsWith ("/shipments/" ++ id) "/secure" = false := rfl
  have hstart := startsWith_shipments id
  simp [route, routeProtected, hne1, hne2, hne3, hne4, hne5, hne6, hne7, hne8,
    hne9, hne10, hne11, hsec, hstart]

theorem Obj.get_append (a b : Obj) (k : String) :
    Obj.get (a ++ b) k = (Obj.get a k).or (Obj.get b k) := by
  unfold Obj.get
  rw [List.find?_append]
  cases List.find? (fun p => p.1 == k) a <;> simp

end MockApi

namespace MockApi

theorem set_map_getD {α β : Type _} (f : α → β) :
    ∀ (l : List α) (i : Nat) (d : α), i < l.length →
      (l.map f).set i (f (l.getD i d)) = l.map f
  | [], i, _, h => by simp at h
  | _ :: _, 0, _, _ => rfl
  | a :: l', i+1, d, h => by
    show f a :: (l'.map f).set i (f (l'.getD i d)) = f a :: l'.map f
    rw [set_map_getD f l' i d (by simpa using h)]

/-- C4: update merge law.  A PUT/PATCH on an existing shipment returns 200
and stores, at the found index, a merged record in which every key bound by
the body has exactly the body value and every other key keeps the prior
record value. -/
theorem c4_update_merge (st : ApiState) (ext : Ext) (method id : String) (body : Obj)
    (headers : List (String × String)) (i : Nat)
    (hm : method = "PUT" ∨ method = "PATCH")
    (hid : '/' ∉ id.data)
    (hlim : jsIncludes ("/shipments/" ++ id) "/limited" = false)
    (hfound : st.shipments.findIdx?
      (fun s => strictEqStr (Obj.get s "id") id) = some i) :
    ∃ merged : Obj,
      (handleRequest st ext method ("/shipments/" ++ id) (some body) headers).1.status
        = 200 ∧
      (handleRequest st ext method ("/shipments/" ++ id) (some body) headers).1.data
        = .vobj merged ∧
      (handleRequest st ext method ("/shipments/" ++ id) (some body) headers).2.shipments
        = st.shipments.set i merged ∧
      (∀ k v, Obj.get body k = some v → Obj.get merged k = some v) ∧
      (∀ k, Obj.get body k = none →
        Obj.get merged k = Obj.get (st.shipments.getD i []) k) := by
  have hr := handleRequest_eq_route st ext method ("/shipments/" ++ id)
    (some body) headers hlim
  rw [route_update_raw _ _ _ _ _ _ hm, lastSegment_shipments id hid, hfound] at hr
  refine ⟨body ++ st.shipments.getD i [], ?_, ?_, ?_, ?_, ?_⟩
  · rw [hr]
  · rw [hr]
    rfl
  · rw [hr]
    rfl
  · intro k v hk
    rw [Obj.get_append, hk]
    rfl
  · intro k hk
    rw [Obj.get_append, hk]
    rfl

/-- C6 counterexample: a PUT whose body carries an `id` field overwrites
the stored id — the first record's id changes from `SHP-101` to `HACKED`,
so the id is not immutable under updates as claimed. -/
theorem c6_id_overwrite_cex :
    Obj.get (((handleRequest (initState 0)
        { now := 0, randId := 0, randTxn := "", isoTime := "" }
        "PUT" "/shipments/SHP-101" (some [("id", .vstr "HACKED")])
        []).2.shipments.headD [])) "id" = some (.vstr "HACKED") ∧
    Obj.get ((initState 0).shipments.headD []) "id" = some (.vstr "SHP-101") := ⟨rfl, rfl⟩

/-- C6 amended: provided the update body does not bind `id`, PUT/PATCH
leaves the id of every record in the live collection unchanged. -/
theorem c6_id_immutable_amended (st : ApiState) (ext : Ext) (method id : String) (body : Obj)
    (headers : List (String × String))
    (hm : method = "PUT" ∨ method = "PATCH")
    (hid : '/' ∉ id.data)
    (hlim : jsIncludes ("/shipments/" ++ id) "/limited" = false)
    (hbody : Obj.get body "id" = none) :
    ((handleRequest st ext method ("/shipments/" ++ id) (some body) headers).2.shipments.map
        (fun s => Obj.get s "id"))
      = st.shipments.map (fun s => Obj.get s "id") := by
  have hr := handleRequest_eq_route st ext method ("/shipments/" ++ id)
    (some body) headers hlim
  rw [route_update_raw _ _ _ _ _ _ hm, lastSegment_shipments id hid] at hr
  rw [hr]
  cases hf : st.shipments.findIdx? (fun s => strictEqStr (Obj.get s "id") id) with
  | none => rfl
  | some i =>
    have hlt : i < st.shipments.length :=
      (List.findIdx?_eq_some_iff_findIdx_eq.mp hf).1
    show (st.shipments.set i ((some body).getD [] ++ st.shipments.getD i [])).map
        (fun s => Obj.get s "id") = _
    rw [List.map_set]
    have hval : Obj.get (body ++ st.shipments.getD i []) "id"
        = Obj.get (st.shipments.getD i []) "id" := by
      rw [Obj.get_append, hbody]
      rfl
    show (st.shipments.map (fun s => Obj.get s "id")).set i
        (Obj.get (body ++ st.shipments.getD i []) "id") = _
    rw [hval]
    exact set_map_getD (fun s => Obj.get s "id") st.shipments i [] hlt

end MockApi

namespace MockApi

theorem route_trigger (st : ApiState) (ext : Ext) (body : Option Obj)
    (headers : List (String × String)) :
    route st ext "POST" "/webhooks/trigger" body headers =
      ({ status := 202
         data := .vobj [("message", .vstr "Webhook event queued"),
           ("eventId", .vstr ("evt_" ++ toString ext.now))]
         headers := [] },
       { st with webhookEvents :=
          if (mkWebhookEvent ext body :: st.webhookEvents).length > 10 then
            (mkWebhookEvent ext body :: st.webhookEvents).dropLast
          else mkWebhookEvent ext body :: st.webhookEvents }) := by
  simp [route]

theorem route_history (st : ApiState) (ext : Ext) (body : Option Obj)
    (headers : List (String × String)) :
    route st ext "GET" "/webhooks/history" body headers =
      ({ status := 200, data := .varr (st.webhookEvents.map .vobj)
         headers := [] }, st) := by
  simp [route]

theorem trigger_step (st : ApiState) (e : Ext) (b : Option Obj)
    (h : st.webhookEvents.length ≤ 10) :
    (handleRequest st e "POST" "/webhooks/trigger" b []).2.webhookEvents
      = (mkWebhookEvent e b :: st.webhookEvents).take 10 := by
  rw [handleRequest_eq_route _ _ _ _ _ _ (by decide), route_trigger]
  show (if (mkWebhookEvent e b :: st.webhookEvents).length > 10 then
      (mkWebhookEvent e b :: st.webhookEvents).dropLast
    else mkWebhookEvent e b :: st.webhookEvents) = _
  by_cases hc : (mkWebhookEvent e b :: st.webhookEvents).length > 10
  · rw [if_pos hc, List.dropLast_eq_take]
    have h10 : (mkWebhookEvent e b :: st.webhookEvents).length - 1 = 10 := by
      simp only [List.length_cons] at hc ⊢
      omega
    rw [h10]
  · rw [if_neg hc]
    exact (List.take_of_length_le (by omega)).symm

theorem take_append_take {α : Type _} (a b : List α) (n : Nat) :
    (a ++ b.take n).take n = (a ++ b).take n := by
  rw [List.take_append_eq_append_take, List.take_append_eq_append_take,
    List.take_take]
  have hmin : min (n - a.length) n = n - a.length :=
    Nat.min_eq_left (Nat.sub_le n a.length)
  rw [hmin]

theorem runTriggers_webhookEvents :
    ∀ (L : List (Ext × Option Obj)) (st : ApiState),
      st.webhookEvents.length ≤ 10 →
      (runTriggers st L).webhookEvents
        = ((L.map (fun p => mkWebhookEvent p.1 p.2)).reverse
            ++ st.webhookEvents).take 10 := by
  intro L
  induction L with
  | nil =>
    intro st h
    show st.webhookEvents = _
    simp only [List.map_nil, List.reverse_nil, List.nil_append]
    exact (List.take_of_length_le h).symm
  | cons p rest ih =>
    intro st h
    obtain ⟨e, b⟩ := p
    show (runTriggers (handleRequest st e "POST" "/webhooks/trigger" b []).2
      rest).webhookEvents = _
    have hstep := trigger_step st e b h
    have hlen :
        (handleRequest st e "POST" "/webhooks/trigger" b []).2.webhookEvents.length
          ≤ 10 := by
      rw [hstep]
      simp [List.length_take]
    rw [ih _ hlen, hstep, take_append_take, List.map_cons, List.reverse_cons,
      List.append_assoc, List.singleton_append]

/-- C3: bounded webhook log.  After any sequence of trigger requests the
log equals the reversed event sequence (most-recent-first) truncated to
ten, hence its length never exceeds ten and past ten triggers it holds
exactly the ten most recent events; the history endpoint returns the log
unchanged, and a single trigger prepends the new event and drops only the
final (oldest) entry, leaving every surviving entry — its id included —
unchanged. -/
theorem c3_webhook_log_bound (st : ApiState) (L : List (Ext × Option Obj)) (ext' : Ext)
    (h : st.webhookEvents.length ≤ 10) :
    (runTriggers st L).webhookEvents
      = ((L.map (fun p => mkWebhookEvent p.1 p.2)).reverse
          ++ st.webhookEvents).take 10 ∧
    (runTriggers st L).webhookEvents.length ≤ 10 ∧
    (L.length > 10 →
      (runTriggers st L).webhookEvents
        = ((L.map (fun p => mkWebhookEvent p.1 p.2)).reverse).take 10 ∧
      (runTriggers st L).webhookEvents.length = 10) ∧
    (handleRequest (runTriggers st L) ext' "GET" "/webhooks/history" none []).1
      = { status := 200
          data := .varr ((runTriggers st L).webhookEvents.map .vobj)
          headers := [] } ∧
    (handleRequest (runTriggers st L) ext' "GET" "/webhooks/history" none []).2
      = runTriggers st L ∧
    (∀ (e : Ext) (b : Option Obj),
      (handleRequest (runTriggers st L) e "POST" "/webhooks/trigger" b
        []).2.webhookEvents
        = (mkWebhookEvent e b :: (runTriggers st L).webhookEvents).take 10) := by
  have hmain := runTriggers_webhookEvents L st h
  have hbound : (runTriggers st L).webhookEvents.length ≤ 10 := by
    rw [hmain]
    simp [List.length_take]
  refine ⟨hmain, hbound, ?_, ?_, ?_, ?_⟩
  · intro hgt
    have hrevlen :
        ((L.map (fun p => mkWebhookEvent p.1 p.2)).reverse).length = L.length := by
      simp
    constructor
    · rw [hmain, List.take_append_eq_append_take]
      have hz : 10 - ((L.map (fun p => mkWebhookEvent p.1 p.2)).reverse).length
          = 0 := by omega
      rw [hz]
      simp
    · rw [hmain]
      simp only [List.length_take, List.length_append]
      omega
  · rw [handleRequest_eq_route _ _ _ _ _ _ (by decide), route_history]
  · rw [handleRequest_eq_route _ _ _ _ _ _ (by decide), route_history]
  · intro e b
    exact trigger_step _ e b hbound

end MockApi

namespace MockApi

theorem route_limited (st : ApiState) (ext : Ext) (body : Option Obj) :
    route st ext "GET" "/limited" body [] = (respFallback, st) := by
  have h1 : jsStartsWith "/limited" "/secure" = false := rfl
  have h2 : jsStartsWith "/limited" "/shipments/" = false := rfl
  simp [route, routeProtected, h1, h2, respFallback]

theorem limited_step_within (st : ApiState) (t : Int)
    (h : ¬ (t - st.lastResetTime > 60000)) :
    handleRequest st (mkExtAt t) "GET" "/limited" none []
      = ((if st.rateLimitCounter + 1 ≤ 10 then respFallback else respLimited),
         { st with rateLimitCounter := st.rateLimitCounter + 1 }) := by
  have hinc : jsIncludes "/limited" "/limited" = true := by decide
  have hchk : checkRateLimit st.rateLimitCounter st.lastResetTime t
      = (decide (st.rateLimitCounter + 1 ≤ 10), st.rateLimitCounter + 1,
         st.lastResetTime) := by
    simp [checkRateLimit, h]
  by_cases hc : st.rateLimitCounter + 1 ≤ 10
  · simp [handleRequest, hinc, mkExtAt, hchk, hc, route_limited]
  · simp [handleRequest, hinc, mkExtAt, hchk, hc, respLimited]

theorem limited_step_reset (st : ApiState) (t : Int)
    (h : t - st.lastResetTime > 60000) :
    handleRequest st (mkExtAt t) "GET" "/limited" none []
      = (respFallback, { st with rateLimitCounter := 1, lastResetTime := t }) := by
  have hinc : jsIncludes "/limited" "/limited" = true := by decide
  have hchk : checkRateLimit st.rateLimitCounter st.lastResetTime t
      = (true, 1, t) := by
    simp [checkRateLimit, h]
  simp [handleRequest, hinc, mkExtAt, hchk, route_limited]

theorem runLimited_spec :
    ∀ (ts : List Int) (st : ApiState),
      (∀ t ∈ ts, t - st.lastResetTime ≤ 60000) →
      (runLimited st ts).2.rateLimitCounter = st.rateLimitCounter + ts.length ∧
      (runLimited st ts).2.lastResetTime = st.lastResetTime ∧
      (runLimited st ts).1.length = ts.length ∧
      ∀ i, i < ts.length →
        (runLimited st ts).1.getD i respFallback
          = (if st.rateLimitCounter + i + 1 ≤ 10 then respFallback
             else respLimited) := by
  intro ts
  induction ts with
  | nil => intro st _; exact ⟨rfl, rfl, rfl, fun i hi => by simp at hi⟩
  | cons t rest ih =>
    intro st hall
    have hw : ¬ (t - st.lastResetTime > 60000) := by
      have := hall t (List.mem_cons_self t rest)
      omega
    have hstep := limited_step_within st t hw
    have htail : ∀ u ∈ rest,
        u - ({ st with rateLimitCounter := st.rateLimitCounter + 1 }
          : ApiState).lastResetTime ≤ 60000 := by
      intro u hu
      exact hall u (List.mem_cons_of_mem _ hu)
    have ihr := ih _ htail
    have ih1 : (runLimited
        ({ st with rateLimitCounter := st.rateLimitCounter + 1 } : ApiState)
          rest).2.rateLimitCounter = st.rateLimitCounter + 1 + rest.length := ihr.1
    have ih2 : (runLimited
        ({ st with rateLimitCounter := st.rateLimitCounter + 1 } : ApiState)
          rest).2.lastResetTime = st.lastResetTime := ihr.2.1
    have ih3 : (runLimited
        ({ st with rateLimitCounter := st.rateLimitCounter + 1 } : ApiState)
          rest).1.length = rest.length := ihr.2.2.1
    have hrl : runLimited st (t :: rest)
        = ((handleRequest st (mkExtAt t) "GET" "/limited" none []).1 ::
            (runLimited (handleRequest st (mkExtAt t) "GET" "/limited" none
              []).2 rest).1,
           (runLimited (handleRequest st (mkExtAt t) "GET" "/limited" none
              []).2 rest).2) := rfl
    rw [hrl, hstep]
    refine ⟨?_, ?_, ?_, ?_⟩
    · show (runLimited _ rest).2.rateLimitCounter = _
      rw [ih1]
      simp only [List.length_cons]
      omega
    · exact ih2
    · show ((runLimited _ rest).1.length + 1 : Nat) = _
      rw [ih3]
      simp
    · intro i hi
      match i with
      | 0 =>
        show (if st.rateLimitCounter + 1 ≤ 10 then respFallback else respLimited)
          = _
        simp
      | j + 1 =>
        show (runLimited _ rest).1.getD j respFallback = _
        rw [ihr.2.2.2 j (by simpa using hi)]
        have harith : st.rateLimitCounter + 1 + j + 1
            = st.rateLimitCounter + (j + 1) + 1 := by omega
        simp only [harith]

end MockApi

namespace MockApi

set_option maxHeartbeats 1000000 in
theorem routeProtected_inventory (st : ApiState) (ext : Ext)
    (method endpoint : String) (body : Option Obj)
    (headers : List (String × String)) :
    (routeProtected st ext method endpoint body headers).2.inventory
      = st.inventory := by
  simp only [routeProtected]
  repeat' split
  all_goals rfl

set_option maxHeartbeats 1000000 in
theorem routeProtected_tokens (st : ApiState) (ext : Ext)
    (method endpoint : String) (body : Option Obj)
    (headers : List (String × String)) :
    (routeProtected st ext method endpoint body headers).2.tokens
      = st.tokens := by
  simp only [routeProtected]
  repeat' split
  all_goals rfl

set_option maxHeartbeats 1000000 in
theorem routeProtected_rateLimitCounter (st : ApiState) (ext : Ext)
    (method endpoint : String) (body : Option Obj)
    (headers : List (String × String)) :
    (routeProtected st ext method endpoint body headers).2.rateLimitCounter
      = st.rateLimitCounter := by
  simp only [routeProtected]
  repeat' split
  all_goals rfl

set_option maxHeartbeats 1000000 in
theorem routeProtected_lastResetTime (st : ApiState) (ext : Ext)
    (method endpoint : String) (body : Option Obj)
    (headers : List (String × String)) :
    (routeProtected st ext method endpoint body headers).2.lastResetTime
      = st.lastResetTime := by
  simp only [routeProtected]
  repeat' split
  all_goals rfl

set_option maxHeartbeats 1000000 in
theorem routeProtected_webhookEvents (st : ApiState) (ext : Ext)
    (method endpoint : String) (body : Option Obj)
    (headers : List (String × String)) :
    (routeProtected st ext method endpoint body headers).2.webhookEvents
      = st.webhookEvents := by
  simp only [routeProtected]
  repeat' split
  all_goals rfl

set_option maxHeartbeats 1000000 in
theorem routeProtected_shipments (st : ApiState) (ext : Ext)
    (method endpoint : String) (body : Option Obj)
    (headers : List (String × String))
    (h1 : ¬ (endpoint = "/shipments" ∧ method = "POST"))
    (h2 : ¬ (jsStartsWith endpoint "/shipments/"
        ∧ (method = "PUT" ∨ method = "PATCH")))
    (h3 : ¬ (jsStartsWith endpoint "/shipments/" ∧ method = "DELETE")) :
    (routeProtected st ext method endpoint body headers).2.shipments
      = st.shipments := by
  simp only [routeProtected]
  repeat' split
  all_goals rfl

set_option maxHeartbeats 1000000 in
theorem route_inventory (st : ApiState) (ext : Ext) (method endpoint : String)
    (body : Option Obj) (headers : List (String × String)) :
    (route st ext method endpoint body headers).2.inventory = st.inventory := by
  simp only [route]
  repeat' split
  all_goals (first | rfl | apply routeProtected_inventory)

set_option maxHeartbeats 1000000 in
theorem route_tokens (st : ApiState) (ext : Ext) (method endpoint : String)
    (body : Option Obj) (headers : List (String × String)) :
    (route st ext method endpoint body headers).2.tokens = st.tokens := by
  simp only [route]
  repeat' split
  all_goals (first | rfl | apply routeProtected_tokens)

set_option maxHeartbeats 1000000 in
theorem route_rateLimitCounter (st : ApiState) (ext : Ext)
    (method endpoint : String) (body : Option Obj)
    (headers : List (String × String)) :
    (route st ext method endpoint body headers).2.rateLimitCounter
      = st.rateLimitCounter := by
  simp only [route]
  repeat' split
  all_goals (first | rfl | apply routeProtected_rateLimitCounter)

set_option maxHeartbeats 1000000 in
theorem route_lastResetTime (st : ApiState) (ext : Ext)
    (method endpoint : String) (body : Option Obj)
    (headers : List (String × String)) :
    (route st ext method endpoint body headers).2.lastResetTime
      = st.lastResetTime := by
  simp only [route]
  repeat' split
  all_goals (first | rfl | apply routeProtected_lastResetTime)

set_option maxHeartbeats 1000000 in
theorem route_webhookEvents (st : ApiState) (ext : Ext)
    (method endpoint : String) (body : Option Obj)
    (headers : List (String × String))
    (h : ¬ (endpoint = "/webhooks/trigger" ∧ method = "POST")) :
    (route st ext method endpoint body headers).2.webhookEvents
      = st.webhookEvents := by
  simp only [route]
  repeat' split
  all_goals (first | rfl | apply routeProtected_webhookEvents)

set_option maxHeartbeats 1000000 in
theorem route_shipments (st : ApiState) (ext : Ext)
    (method endpoint : String) (body : Option Obj)
    (headers : List (String × String))
    (h1 : ¬ (endpoint = "/shipments" ∧ method = "POST"))
    (h2 : ¬ (jsStartsWith endpoint "/shipments/"
        ∧ (method = "PUT" ∨ method = "PATCH")))
    (h3 : ¬ (jsStartsWith endpoint "/shipments/" ∧ method = "DELETE")) :
    (route st ext method endpoint body headers).2.shipments = st.shipments := by
  simp only [route]
  repeat' split
  all_goals (first | rfl | exact routeProtected_shipments _ _ _ _ _ _ h1 h2 h3)

end MockApi

namespace MockApi

/-- C5: rate window behaviour.  Starting from a fresh window, eleven checks
of the limited path inside the 60-second window produce ten allowed
responses and an eleventh denial carrying status 429 and `retryAfter` 60
(strictly positive); once more than 60 seconds have elapsed since the
window start, the counter resets and the next check is allowed again. -/
theorem c5_rate_window (t0 : Int) (ts : List Int) (t' : Int)
    (hlen : ts.length = 11)
    (hwin : ∀ t ∈ ts, t - t0 ≤ 60000)
    (hafter : t' - t0 > 60000) :
    (∀ i, i < 10 →
      (runLimited (initState t0) ts).1.getD i respFallback = respFallback) ∧
    (runLimited (initState t0) ts).1.getD 10 respFallback = respLimited ∧
    respLimited.status = 429 ∧
    Value.objGet respLimited.data "retryAfter" = some (.vnum 60) ∧
    (60 : Int) > 0 ∧
    respFallback.status ≠ 429 ∧
    (handleRequest (runLimited (initState t0) ts).2 (mkExtAt t') "GET"
      "/limited" none []).1 = respFallback := by
  have hwin' : ∀ t ∈ ts, t - (initState t0).lastResetTime ≤ 60000 := hwin
  have hspec := runLimited_spec ts (initState t0) hwin'
  have h0 : (initState t0).rateLimitCounter = 0 := rfl
  refine ⟨?_, ?_, rfl, rfl, by norm_num, by decide, ?_⟩
  · intro i hi
    have hcond : (initState t0).rateLimitCounter + i + 1 ≤ 10 := by
      rw [h0]; omega
    rw [hspec.2.2.2 i (by omega), if_pos hcond]
  · have hcond : ¬ ((initState t0).rateLimitCounter + 10 + 1 ≤ 10) := by
      rw [h0]; omega
    rw [hspec.2.2.2 10 (by omega), if_neg hcond]
  · have hl := hspec.2.1
    have hstep := limited_step_reset (runLimited (initState t0) ts).2 t'
      (by rw [hl]; exact hafter)
    rw [hstep]

theorem c5_rate_window_witness :
    (List.replicate 11 (0 : Int)).length = 11 ∧
    (runLimited (initState 0) (List.replicate 11 0)).1.getD 10 respFallback
      = respLimited :=
  ⟨by simp,
   (c5_rate_window 0 (List.replicate 11 0) 70000 (by simp)
      (fun t ht => by rw [List.eq_of_mem_replicate ht]; decide) (by decide)).2.1⟩

/-- C8 counterexample: a POST /shipments (a resource CRUD route of step 8)
grows the shipment collection from 2 to 3 records, so the CRUD steps do not
leave the engine state unchanged. -/
theorem c8_crud_mutates_cex :
    (handleRequest (initState 0) (mkExtAt 0) "POST" "/shipments"
      (some [("origin", .vstr "Paris")]) []).2.shipments.length = 3 ∧
    (initState 0).shipments.length = 2 := by decide

/-- C8 amended: dispatch side effects are confined to the rate-limiter
step (counter and window start, touched only for the limited path family),
the webhook trigger step (event log) and the shipment CRUD steps
(collection); the inventory and token set are never mutated, and outside
those steps the remaining state components are unchanged as well. -/
theorem c8_dispatch_frame (st : ApiState) (ext : Ext) (method endpoint : String)
    (body : Option Obj) (headers : List (String × String)) :
    (handleRequest st ext method endpoint body headers).2.inventory
      = st.inventory ∧
    (handleRequest st ext method endpoint body headers).2.tokens = st.tokens ∧
    (jsIncludes endpoint "/limited" = false →
      (handleRequest st ext method endpoint body headers).2.rateLimitCounter
        = st.rateLimitCounter ∧
      (handleRequest st ext method endpoint body headers).2.lastResetTime
        = st.lastResetTime) ∧
    (¬ (endpoint = "/webhooks/trigger" ∧ method = "POST") →
      (handleRequest st ext method endpoint body headers).2.webhookEvents
        = st.webhookEvents) ∧
    (¬ (endpoint = "/shipments" ∧ method = "POST") →
      ¬ (jsStartsWith endpoint "/shipments/"
          ∧ (method = "PUT" ∨ method = "PATCH")) →
      ¬ (jsStartsWith endpoint "/shipments/" ∧ method = "DELETE") →
      (handleRequest st ext method endpoint body headers).2.shipments
        = st.shipments) := by
  by_cases hlim : jsIncludes endpoint "/limited" = false
  · rw [handleRequest_eq_route _ _ _ _ _ _ hlim]
    exact ⟨route_inventory _ _ _ _ _ _, route_tokens _ _ _ _ _ _,
      fun _ => ⟨route_rateLimitCounter _ _ _ _ _ _,
        route_lastResetTime _ _ _ _ _ _⟩,
      fun h => route_webhookEvents _ _ _ _ _ _ h,
      fun h1 h2 h3 => route_shipments _ _ _ _ _ _ h1 h2 h3⟩
  · have hlim' : jsIncludes endpoint "/limited" = true := by
      cases hx : jsIncludes endpoint "/limited"
      · exact absurd hx hlim
      · rfl
    have hh : handleRequest st ext method endpoint body headers
        = (let r := checkRateLimit st.rateLimitCounter st.lastResetTime ext.now
           let st1 : ApiState :=
             { st with rateLimitCounter := r.2.1, lastResetTime := r.2.2 }
           if r.1 = false then
             ({ status := 429
                data := .vobj [("error", .vstr "Too Many Requests"),
                  ("retryAfter", .vnum 60)]
                headers := [] }, st1)
           else route st1 ext method endpoint body headers) := by
      simp [handleRequest, hlim']
    rw [hh]
    by_cases hb : (checkRateLimit st.rateLimitCounter st.lastResetTime
        ext.now).1 = false
    · simp only [hb, if_true]
      exact ⟨trivial, trivial,
        fun hfalse => absurd (hlim'.symm.trans hfalse) (by decide),
        fun _ => trivial, fun _ _ _ => trivial⟩
    · simp only [hb, if_false]
      refine ⟨route_inventory _ _ _ _ _ _, route_tokens _ _ _ _ _ _,
        fun hfalse => absurd (hlim'.symm.trans hfalse) (by decide),
        fun h => route_webhookEvents _ _ _ _ _ _ h,
        fun h1 h2 h3 => route_shipments _ _ _ _ _ _ h1 h2 h3⟩

theorem c8_dispatch_frame_witness :
    (handleRequest (initState 0) (mkExtAt 0) "GET" "/error/400" none
      []).2.shipments = (initState 0).shipments ∧
    (handleRequest (initState 0) (mkExtAt 0) "GET" "/error/400" none
      []).2.webhookEvents = (initState 0).webhookEvents :=
  ⟨(c8_dispatch_frame (initState 0) (mkExtAt 0) "GET" "/error/400" none
      []).2.2.2.2 (by decide) (by decide) (by decide),
   (c8_dispatch_frame (initState 0) (mkExtAt 0) "GET" "/error/400" none
      []).2.2.2.1 (by decide)⟩


theorem c3_webhook_log_bound_witness :
    (initState 0).webhookEvents.length ≤ 10 ∧
    (runTriggers (initState 0)
      ((List.range 11).map (fun i => (mkExtAt (Int.ofNat i),
        (none : Option Obj))))).webhookEvents.length = 10 :=
  ⟨by decide,
   ((c3_webhook_log_bound (initState 0)
      ((List.range 11).map (fun i => (mkExtAt (Int.ofNat i),
        (none : Option Obj)))) (mkExtAt 0) (by decide)).2.2.1 (by simp)).2⟩

theorem c4_update_merge_witness :
    (handleRequest (initState 0) (mkExtAt 0) "PUT" ("/shipments/" ++ "SHP-101")
      (some [("status", .vstr "DELIVERED")]) []).1.status = 200 := by
  obtain ⟨m, h1, -⟩ := c4_update_merge (initState 0) (mkExtAt 0) "PUT" "SHP-101"
    [("status", .vstr "DELIVERED")] [] 0 (Or.inl rfl) (by decide) (by decide)
    (by decide)
  exact h1

theorem c6_id_immutable_amended_witness :
    ((handleRequest (initState 0) (mkExtAt 0) "PUT" ("/shipments/" ++ "SHP-101")
      (some [("status", .vstr "DELIVERED")]) []).2.shipments.map
        (fun s => Obj.get s "id"))
      = (initState 0).shipments.map (fun s => Obj.get s "id") :=
  c6_id_immutable_amended (initState 0) (mkExtAt 0) "PUT" "SHP-101"
    [("status", .vstr "DELIVERED")] [] (Or.inl rfl) (by decide) (by decide) rfl

theorem c9_create_forces_id_status_witness :
    (handleRequest (initState 0) (mkExtAt 0) "POST" "/shipments"
      (some [("origin", .vstr "Paris")]) []).1.status = 201 := by
  obtain ⟨m, h1, -⟩ := c9_create_forces_id_status (initState 0) (mkExtAt 0)
    [("origin", .vstr "Paris")] []
  exact h1

end MockApi
